import Mathlib

/-!
Verification development for the contact/internship backend (src/server.js).

The server is shallowly embedded: its state (GridFS blob bucket, the two
mongoose collections) becomes an explicit `ServerState`, each route handler
becomes a pure function from state and request data to a `Response` and a new
state, and the infrastructure faults the code can hit (connection loss, a
GridFS stream error, a failed save) are passed as explicit `Option String`
parameters carrying the thrown error's message, `none` meaning no fault.
The listing routes delegate ordering to MongoDB's sort, whose tie order is
not specified; they are therefore embedded as a relation between the stored
records and the admissible responses.
-/

namespace Backend

/-- A stored GridFS file (bucket "resumes"): generated name, content type and
raw bytes.  Blob ids are modelled as the numeric value of the 12-byte
ObjectId. -/
structure Blob where
  filename : String
  contentType : String
  data : List Nat
deriving DecidableEq

/-- A document of the InternshipContact collection (internshipContactSchema):
all four text fields are required, `resumeFileId` points into the blob
bucket, `createdAt` defaults to the insertion time. -/
structure InternshipRecord where
  name : String
  lastName : String
  mobile : String
  email : String
  resumeFileId : Nat
  resumeFileName : String
  createdAt : Nat
deriving DecidableEq

/-- The JSON body of POST /api/contact/general as destructured by the
handler: each field is absent (`none`) or a string. -/
structure GeneralInput where
  name : Option String
  mobile : Option String
  email : Option String
  subject : Option String
  message : Option String
deriving DecidableEq

/-- The text fields of POST /api/contact/internship as destructured from
`req.body`. -/
structure InternshipInput where
  name : Option String
  lastName : Option String
  mobile : Option String
  email : Option String
deriving DecidableEq

/-- The uploaded file as multer presents it: original client filename, MIME
type, and the buffered bytes. -/
structure UploadFile where
  originalname : String
  mimetype : String
  bytes : List Nat
deriving DecidableEq

/-- The persisted state: the GridFS bucket (association list from blob id to
blob), the InternshipContact collection in insertion order, the
GeneralContact collection in insertion order (each stored general document
is the list of key/value pairs mongoose actually persists), and the counter
generating fresh blob ids. -/
structure ServerState where
  blobs : List (Nat × Blob)
  internships : List InternshipRecord
  generals : List (List (String × String))
  nextBlobId : Nat
deriving DecidableEq

/-- The body of an HTTP response, by shape:
`errorObj e` is `{error: e}`; `msgObj s m e` is `{success: s, message: m}`
with an optional `error` field; `postObj m d` is `{success: true, message: m,
data: d}`; `listObj ds` is `{success: true, data: ds}`; `pdfStream` is a
streamed file with its Content-Type and Content-Disposition filename;
`errorPage m` is the HTML page Express's built-in error handler renders for
an error with message `m` (server.js registers no error-handling
middleware, so multer errors end there). -/
inductive Body where
  | errorObj (error : String)
  | msgObj (success : Bool) (message : String) (error : Option String)
  | postObj (message : String) (data : List (String × String))
  | listObj (data : List (List (String × String)))
  | pdfStream (contentType : String) (filename : String) (bytes : List Nat)
  | errorPage (message : String)
deriving DecidableEq

/-- An HTTP response: status code and body. -/
structure Response where
  status : Nat
  body : Body
deriving DecidableEq

/-- Value of a hexadecimal digit character, `none` if not one
(matching bson's /[0-9a-fA-F]/ check). -/
def hexVal (c : Char) : Option Nat :=
  if 48 ≤ c.toNat ∧ c.toNat ≤ 57 then some (c.toNat - 48)
  else if 97 ≤ c.toNat ∧ c.toNat ≤ 102 then some (c.toNat - 87)
  else if 65 ≤ c.toNat ∧ c.toNat ≤ 70 then some (c.toNat - 55)
  else none

def isHexChar (c : Char) : Bool := (hexVal c).isSome

/-- `new mongoose.Types.ObjectId(s)` (line 259): a 12-character string is
accepted as the raw 12 bytes of the id; a 24-character string of hex digits
is accepted as the hex encoding; anything else throws.  The id is modelled
as the numeric value of those 12 bytes. -/
def parseObjectId (s : String) : Option Nat :=
  if s.length = 12 then
    some (s.data.foldl (fun a c => a * 256 + c.toNat % 256) 0)
  else if s.length = 24 ∧ s.data.all isHexChar then
    some (s.data.foldl (fun a c => a * 16 + (hexVal c).getD 0) 0)
  else none

def hexChar (n : Nat) : Char :=
  if n < 10 then Char.ofNat (48 + n) else Char.ofNat (87 + n)

/-- How an ObjectId prints when interpolated into a string or serialized to
JSON: 24 lowercase hex digits. -/
def toHex24 (n : Nat) : String :=
  String.mk ((List.range 24).map (fun i => hexChar (n / 16 ^ (23 - i) % 16)))

/-- JavaScript falsiness of a possibly-absent string field, as used by the
`!name || !email` validation checks: absent and `""` are falsy. -/
def falsy : Option String → Bool
  | none => true
  | some s => s == ""

/-- `gfsBucket.find({_id: fileId})` restricted to one id: first blob stored
under that id, if any. -/
def findBlob : List (Nat × Blob) → Nat → Option Blob
  | [], _ => none
  | (k, b) :: t, i => if i = k then some b else findBlob t i

/-- First value stored under a key in a persisted document, `none` when the
document has no such key. -/
def lookupField : List (String × String) → String → Option String
  | [], _ => none
  | (k, v) :: t, key => if key = k then some v else lookupField t key

/-- How an InternshipContact document serializes (toObject / res.json):
every schema path is present, the ObjectId as hex, the date as its
timestamp. -/
def internshipDoc (r : InternshipRecord) : List (String × String) :=
  [("name", r.name), ("lastName", r.lastName), ("mobile", r.mobile),
   ("email", r.email), ("resumeFileId", toHex24 r.resumeFileId),
   ("resumeFileName", r.resumeFileName), ("createdAt", toString r.createdAt)]

/-- A single optional document entry: mongoose persists a path only when its
value is defined, so an absent field contributes no key at all. -/
def optField (key : String) : Option String → List (String × String)
  | none => []
  | some v => [(key, v)]

/-- The GeneralContact document mongoose persists for
`new GeneralContact({name, mobile, email, subject, message})` followed by
`save()`: paths set to `undefined` are treated as unset and are omitted from
the stored document; `createdAt` gets its default. -/
def generalDoc (inp : GeneralInput) (now : Nat) : List (String × String) :=
  optField "name" inp.name ++ optField "mobile" inp.mobile ++
  optField "email" inp.email ++ optField "subject" inp.subject ++
  optField "message" inp.message ++ [("createdAt", toString now)]

/-- multer `limits.fileSize`: 5 * 1024 * 1024 bytes. -/
def fileSizeLimit : Nat := 5 * 1024 * 1024

/-- Message of the Error the fileFilter passes to multer for a non-PDF
upload (line 82). -/
def pdfOnlyMessage : String := "Only PDF files are allowed!"

/-- Message of the MulterError LIMIT_FILE_SIZE raised when the stream
exceeds `limits.fileSize`. -/
def fileTooLargeMessage : String := "File too large"

/-- The multer middleware stage of `upload.single("resume")`: for an
attached file the fileFilter runs first, on the file's metadata, before any
of the stream is consumed, so a non-PDF is rejected with the filter's error
whatever its size; a PDF whose stream exceeds `limits.fileSize` is then
aborted with LIMIT_FILE_SIZE.  Returns the message of the error handed to
`next(err)`, or `none` when the request reaches the route handler. -/
def multerCheck : Option UploadFile → Option String
  | none => none
  | some f =>
    if f.mimetype ≠ "application/pdf" then some pdfOnlyMessage
    else if fileSizeLimit < f.bytes.length then some fileTooLargeMessage
    else none

/-- POST /api/contact/internship (lines 132-210).  `dbFault`, `upFault` and
`saveFault` carry the message of an error thrown by `connectToDatabase()`,
the GridFS upload stream, or `newContact.save()` respectively.  A multer
error never reaches the handler: with no error middleware registered it
falls to Express's default handler, a plain Error carries no status, and the
response is a 500 error page.  Inside the handler: connect, validate the
four text fields, require the file, stream the buffer into GridFS under the
generated `resume_<now>_<originalname>` name (a stream error leaves no entry
in resumes.files, so no blob becomes visible), then save the record
referencing the confirmed file id, and echo the saved document plus its
`resumeDownloadUrl`; every thrown error lands in the catch as a 500 whose
`error` field is the underlying message. -/
def postInternship (dbFault upFault saveFault : Option String)
    (st : ServerState) (body : InternshipInput) (file : Option UploadFile)
    (now : Nat) : Response × ServerState :=
  match multerCheck file with
  | some m => (⟨500, Body.errorPage m⟩, st)
  | none =>
    match dbFault with
    | some m =>
      (⟨500, Body.msgObj false "Failed to save internship application" (some m)⟩, st)
    | none =>
      if falsy body.name || falsy body.lastName || falsy body.email || falsy body.mobile then
        (⟨400, Body.msgObj false
          "All fields are required: name, lastName, email, and mobile" none⟩, st)
      else
        match file with
        | none => (⟨400, Body.msgObj false "Resume file is required" none⟩, st)
        | some f =>
          let fileName := "resume_" ++ toString now ++ "_" ++ f.originalname
          let fileId := st.nextBlobId
          match upFault with
          | some m =>
            (⟨500, Body.msgObj false "Failed to save internship application" (some m)⟩, st)
          | none =>
            let st1 : ServerState :=
              { st with
                blobs := (fileId, ⟨fileName, "application/pdf", f.bytes⟩) :: st.blobs,
                nextBlobId := st.nextBlobId + 1 }
            match saveFault with
            | some m =>
              (⟨500, Body.msgObj false "Failed to save internship application" (some m)⟩, st1)
            | none =>
              let rcd : InternshipRecord :=
                ⟨body.name.getD "", body.lastName.getD "", body.mobile.getD "",
                 body.email.getD "", fileId, fileName, now⟩
              (⟨200, Body.postObj "Internship application saved successfully!"
                  (internshipDoc rcd ++
                   [("resumeDownloadUrl", "/api/resume/" ++ toHex24 fileId)])⟩,
               { st1 with internships := st1.internships ++ [rcd] })

/-- POST /api/contact/general (lines 213-251): connect, require truthy name
and email, build the document from the supplied fields and save it; a
thrown error lands in the catch as a 500 whose `error` field is the
underlying message. -/
def postGeneral (dbFault saveFault : Option String) (st : ServerState)
    (inp : GeneralInput) (now : Nat) : Response × ServerState :=
  match dbFault with
  | some m => (⟨500, Body.msgObj false "Failed to save message" (some m)⟩, st)
  | none =>
    if falsy inp.name || falsy inp.email then
      (⟨400, Body.msgObj false "Name and email are required" none⟩, st)
    else
      match saveFault with
      | some m => (⟨500, Body.msgObj false "Failed to save message" (some m)⟩, st)
      | none =>
        let doc := generalDoc inp now
        (⟨200, Body.postObj "Message saved successfully!" doc⟩,
         { st with generals := st.generals ++ [doc] })

/-- GET /api/resume/:id (lines 254-286).  Any error thrown before streaming
begins — a connection fault from `connectToDatabase()` just like a malformed
id rejected by the ObjectId constructor — lands in the same catch and yields
400 {error: "Invalid resume ID"}.  A well-formed id matching no entry of
resumes.files yields 404 {error: "Resume not found"}.  Otherwise the file
streams out with the hardcoded application/pdf content type and the stored
filename in the inline disposition; a download-stream error yields 500
{error: "Error downloading file"}. -/
def getResume (dbFault : Option String) (streamFault : Bool)
    (st : ServerState) (idStr : String) : Response :=
  match dbFault with
  | some _ => ⟨400, Body.errorObj "Invalid resume ID"⟩
  | none =>
    match parseObjectId idStr with
    | none => ⟨400, Body.errorObj "Invalid resume ID"⟩
    | some fid =>
      match findBlob st.blobs fid with
      | none => ⟨404, Body.errorObj "Resume not found"⟩
      | some b =>
        if streamFault then ⟨500, Body.errorObj "Error downloading file"⟩
        else ⟨200, Body.pdfStream "application/pdf" b.filename b.data⟩

/-- The output of `InternshipContact.find().sort({createdAt: -1})`:
descending by `createdAt`, later-stored records not below earlier ones when
timestamps tie. -/
def sortedByCreatedAtDesc (out : List InternshipRecord) : Prop :=
  out.Pairwise (fun a b => b.createdAt ≤ a.createdAt)

/-- Admissible results of MongoDB's sort on the stored collection: any
permutation of the input that is ordered by `createdAt` descending.
MongoDB's sort gives no guarantee on the relative order of documents with
equal sort keys, so ties admit every arrangement. -/
def mongoSorted (input output : List InternshipRecord) : Prop :=
  output.Perm input ∧ sortedByCreatedAtDesc output

instance (out : List InternshipRecord) :
    Decidable (sortedByCreatedAtDesc out) := by
  unfold sortedByCreatedAtDesc
  infer_instance

instance (input output : List InternshipRecord) :
    Decidable (mongoSorted input output) := by
  unfold mongoSorted
  infer_instance

/-- GET /api/contacts/internship (lines 289-306), as a relation between the
state and the admissible responses: on a fault the catch yields a 500 whose
body carries no error text; otherwise the response data is exactly the
sorted records, serialized — with no further decoration. -/
def listInternshipValid (dbFault : Option String) (st : ServerState)
    (resp : Response) : Prop :=
  match dbFault with
  | some _ =>
    resp = ⟨500, Body.msgObj false "Failed to fetch internship contacts" none⟩
  | none =>
    ∃ out, mongoSorted st.internships out ∧
      resp = ⟨200, Body.listObj (out.map internshipDoc)⟩

/-- A request against the server, with its fault injections. -/
inductive Op where
  | postI (dbFault upFault saveFault : Option String) (body : InternshipInput)
      (file : Option UploadFile) (now : Nat)
  | postG (dbFault saveFault : Option String) (inp : GeneralInput) (now : Nat)
  | getR (dbFault : Option String) (streamFault : Bool) (idStr : String)
  | listI
  | listG
deriving DecidableEq

/-- The state after a request: only the two POST handlers write; the resume
download and the listings read without modifying anything. -/
def stepState (st : ServerState) : Op → ServerState
  | .postI d u s b f n => (postInternship d u s st b f n).2
  | .postG d s i n => (postGeneral d s st i n).2
  | .getR _ _ _ => st
  | .listI => st
  | .listG => st

/-- The state of a fresh deployment: empty bucket, empty collections. -/
def initState : ServerState := ⟨[], [], [], 0⟩

/-- State reached after serving a sequence of requests from a fresh
deployment. -/
def runOps (ops : List Op) : ServerState := ops.foldl stepState initState

/-- Every blob id in the bucket is below the fresh-id counter. -/
def blobIdsBounded (st : ServerState) : Prop :=
  ∀ p ∈ st.blobs, p.1 < st.nextBlobId

/-- Every stored internship record's `resumeFileId` resolves to a blob. -/
def noDangling (st : ServerState) : Prop :=
  ∀ r ∈ st.internships, (findBlob st.blobs r.resumeFileId).isSome = true

def goodState (st : ServerState) : Prop := blobIdsBounded st ∧ noDangling st

lemma findBlob_cons_self (l : List (Nat × Blob)) (k : Nat) (b : Blob) :
    findBlob ((k, b) :: l) k = some b := by
  simp [findBlob]

lemma findBlob_cons_ne (l : List (Nat × Blob)) (k : Nat) (b : Blob) (i : Nat)
    (h : i ≠ k) : findBlob ((k, b) :: l) i = findBlob l i := by
  simp [findBlob, h]

lemma findBlob_cons_isSome (l : List (Nat × Blob)) (k : Nat) (b : Blob) (i : Nat)
    (h : (findBlob l i).isSome = true) :
    (findBlob ((k, b) :: l) i).isSome = true := by
  by_cases hik : i = k
  · subst hik; simp [findBlob]
  · rwa [findBlob_cons_ne l k b i hik]

lemma findBlob_some_key (l : List (Nat × Blob)) (i : Nat) (b : Blob)
    (h : findBlob l i = some b) : ∃ p ∈ l, p.1 = i := by
  induction l with
  | nil => simp [findBlob] at h
  | cons hd tl ih =>
    obtain ⟨k, b0⟩ := hd
    by_cases hik : i = k
    · exact ⟨(k, b0), List.mem_cons_self _ _, hik.symm⟩
    · rw [findBlob_cons_ne tl k b0 i hik] at h
      obtain ⟨p, hp, hpi⟩ := ih h
      exact ⟨p, List.mem_cons_of_mem _ hp, hpi⟩

lemma findBlob_some_lt (st : ServerState) (hb : blobIdsBounded st) (i : Nat)
    (b : Blob) (h : findBlob st.blobs i = some b) : i < st.nextBlobId := by
  obtain ⟨p, hp, hpi⟩ := findBlob_some_key st.blobs i b h
  exact hpi ▸ hb p hp

lemma postInternship_preserves (d u s : Option String) (st : ServerState)
    (b : InternshipInput) (f : Option UploadFile) (n : Nat)
    (hg : goodState st) :
    goodState (postInternship d u s st b f n).2 ∧
    (∀ i bl, findBlob st.blobs i = some bl →
      findBlob (postInternship d u s st b f n).2.blobs i = some bl) := by
  obtain ⟨hb, hd⟩ := hg
  unfold postInternship
  split
  · exact ⟨⟨hb, hd⟩, fun i bl h => h⟩
  · split
    · exact ⟨⟨hb, hd⟩, fun i bl h => h⟩
    · split
      · exact ⟨⟨hb, hd⟩, fun i bl h => h⟩
      · split
        · exact ⟨⟨hb, hd⟩, fun i bl h => h⟩
        · split
          · exact ⟨⟨hb, hd⟩, fun i bl h => h⟩
          · split
            · refine ⟨⟨?_, ?_⟩, ?_⟩
              · intro p hp
                rcases List.mem_cons.mp hp with hp | hp
                · subst hp; exact Nat.lt_succ_self _
                · exact Nat.lt_succ_of_lt (hb p hp)
              · intro r hr
                exact findBlob_cons_isSome _ _ _ _ (hd r hr)
              · intro i bl h
                have hlt : i < st.nextBlobId :=
                  findBlob_some_lt st hb i bl h
                rw [findBlob_cons_ne _ _ _ _ (Nat.ne_of_lt hlt)]
                exact h
            · refine ⟨⟨?_, ?_⟩, ?_⟩
              · intro p hp
                rcases List.mem_cons.mp hp with hp | hp
                · subst hp; exact Nat.lt_succ_self _
                · exact Nat.lt_succ_of_lt (hb p hp)
              · intro r hr
                rcases List.mem_append.mp hr with hr | hr
                · exact findBlob_cons_isSome _ _ _ _ (hd r hr)
                · rcases List.mem_singleton.mp hr with rfl
                  simp [findBlob]
              · intro i bl h
                have hlt : i < st.nextBlobId :=
                  findBlob_some_lt st hb i bl h
                rw [findBlob_cons_ne _ _ _ _ (Nat.ne_of_lt hlt)]
                exact h

lemma postGeneral_preserves (d s : Option String) (st : ServerState)
    (inp : GeneralInput) (n : Nat) (hg : goodState st) :
    goodState (postGeneral d s st inp n).2 ∧
    (postGeneral d s st inp n).2.blobs = st.blobs ∧
    (postGeneral d s st inp n).2.internships = st.internships ∧
    (postGeneral d s st inp n).2.nextBlobId = st.nextBlobId := by
  unfold postGeneral
  split
  · exact ⟨hg, rfl, rfl, rfl⟩
  · split
    · exact ⟨hg, rfl, rfl, rfl⟩
    · split
      · exact ⟨hg, rfl, rfl, rfl⟩
      · exact ⟨⟨hg.1, hg.2⟩, rfl, rfl, rfl⟩

lemma stepState_preserves (st : ServerState) (op : Op) (hg : goodState st) :
    goodState (stepState st op) ∧
    (∀ i bl, findBlob st.blobs i = some bl →
      findBlob (stepState st op).blobs i = some bl) := by
  cases op with
  | postI d u s b f n => exact postInternship_preserves d u s st b f n hg
  | postG d s i n =>
    obtain ⟨hg2, hbl, _, _⟩ := postGeneral_preserves d s st i n hg
    exact ⟨hg2, fun i bl h => by rw [stepState, hbl]; exact h⟩
  | getR d s i => exact ⟨hg, fun i bl h => h⟩
  | listI => exact ⟨hg, fun i bl h => h⟩
  | listG => exact ⟨hg, fun i bl h => h⟩

lemma foldl_preserves (ops : List Op) : ∀ (st : ServerState), goodState st →
    goodState (List.foldl stepState st ops) ∧
    (∀ i bl, findBlob st.blobs i = some bl →
      findBlob (List.foldl stepState st ops).blobs i = some bl) := by
  induction ops with
  | nil => exact fun st hg => ⟨hg, fun i bl h => h⟩
  | cons op rest ih =>
    intro st hg
    obtain ⟨hg1, hkeep1⟩ := stepState_preserves st op hg
    obtain ⟨hg2, hkeep2⟩ := ih (stepState st op) hg1
    exact ⟨hg2, fun i bl h => hkeep2 i bl (hkeep1 i bl h)⟩

lemma initState_good : goodState initState := by
  constructor
  · intro p hp; simp [initState] at hp
  · intro r hr; simp [initState] at hr

lemma runOps_good (ops : List Op) : goodState (runOps ops) :=
  (foldl_preserves ops initState initState_good).1

/-- Two permutations of the same elements that are both ordered descending
by a key are equal when the keys are pairwise distinct. -/
lemma sortedDesc_perm_eq {α : Type} (key : α → Nat) :
    ∀ (l₁ l₂ : List α), l₁.Perm l₂ →
      l₁.Pairwise (fun a b => key b ≤ key a) →
      l₂.Pairwise (fun a b => key b ≤ key a) →
      (l₁.map key).Nodup → l₁ = l₂ := by
  intro l₁
  induction l₁ with
  | nil =>
    intro l₂ hp _ _ _
    exact (List.Perm.nil_eq hp).symm ▸ rfl
  | cons a t ih =>
    intro l₂ hp h₁ h₂ hnd
    cases l₂ with
    | nil => exact absurd (List.Perm.nil_eq hp.symm) (by simp)
    | cons b t₂ =>
      have hab : a = b := by
        by_cases hab : a = b
        · exact hab
        · have hat : a ∈ t₂ := by
            have := hp.subset (List.mem_cons_self a t)
            rcases List.mem_cons.mp this with h | h
            · exact absurd h hab
            · exact h
          have hbt : b ∈ t := by
            have := hp.symm.subset (List.mem_cons_self b t₂)
            rcases List.mem_cons.mp this with h | h
            · exact absurd h.symm hab
            · exact h
          have hle1 : key a ≤ key b := List.rel_of_pairwise_cons h₂ hat
          have hle2 : key b ≤ key a := List.rel_of_pairwise_cons h₁ hbt
          have hkey : key a = key b := Nat.le_antisymm hle1 hle2
          have hmem : key a ∈ t.map key := hkey ▸ List.mem_map_of_mem key hbt
          rw [List.map_cons, List.nodup_cons] at hnd
          exact absurd hmem hnd.1
      subst hab
      have ht : t.Perm t₂ := List.Perm.cons_inv hp
      have heq : t = t₂ := by
        apply ih t₂ ht (List.Pairwise.of_cons h₁) (List.Pairwise.of_cons h₂)
        rw [List.map_cons, List.nodup_cons] at hnd
        exact hnd.2
      rw [heq]

/-- C1.  For every internship submission that results in a persisted
InternshipRecord, the blob write completed and yielded a confirmed id before
the record referencing it was inserted; hence in every state the server can
reach, each stored record's `resumeFileId` resolves to an existing blob —
never a dangling reference. -/
theorem internship_resume_never_dangling (ops : List Op)
    (r : InternshipRecord) (hr : r ∈ (runOps ops).internships) :
    (findBlob (runOps ops).blobs r.resumeFileId).isSome = true :=
  (runOps_good ops).2 r hr

def sampleOps : List Op :=
  [Op.postI none none none ⟨some "Ada", some "Lovelace", some "070", some "ada@example.org"⟩
    (some ⟨"cv.pdf", "application/pdf", [37, 80, 68, 70]⟩) 5]

def sampleRecord : InternshipRecord :=
  ⟨"Ada", "Lovelace", "070", "ada@example.org", 0, "resume_5_cv.pdf", 5⟩

theorem internship_resume_never_dangling_witness :
    (findBlob (runOps sampleOps).blobs sampleRecord.resumeFileId).isSome = true :=
  internship_resume_never_dangling sampleOps sampleRecord (by decide)

def pngUpload : UploadFile := ⟨"pic.png", "image/png", [137, 80, 78, 71]⟩

def validFields : InternshipInput :=
  ⟨some "Ada", some "Lovelace", some "070", some "ada@example.org"⟩

/-- C2, counterexample.  A valid internship submission carrying an
`image/png` file is indeed rejected with no blob written and no record
inserted (the state is unchanged), but the HTTP status is 500, not 400: the
fileFilter's plain Error reaches Express's default error handler, which
assigns 500 to an error carrying no status. -/
theorem nonpdf_rejected_status_500_ce :
    (postInternship none none none initState validFields (some pngUpload) 0).1.status = 500 ∧
    (postInternship none none none initState validFields (some pngUpload) 0).1.status ≠ 400 ∧
    (postInternship none none none initState validFields (some pngUpload) 0).2 = initState := by
  refine ⟨rfl, by decide, rfl⟩

/-- C2, amended.  A non-PDF upload on the internship route is rejected
before any blob bytes are written and before any record is inserted — the
state, and with it the repository row count, is unchanged — but the
response is HTTP 500 (Express's default error handler renders the
fileFilter's error), not 400. -/
theorem nonpdf_rejected_before_any_write (d u sv : Option String)
    (st : ServerState) (b : InternshipInput) (f : UploadFile) (now : Nat)
    (hmt : f.mimetype ≠ "application/pdf") :
    postInternship d u sv st b (some f) now =
      (⟨500, Body.errorPage pdfOnlyMessage⟩, st) := by
  unfold postInternship multerCheck
  simp [hmt]

theorem nonpdf_rejected_before_any_write_witness :
    postInternship none none none initState validFields (some pngUpload) 0 =
      (⟨500, Body.errorPage pdfOnlyMessage⟩, initState) :=
  nonpdf_rejected_before_any_write none none none initState validFields
    pngUpload 0 (by decide)

def bigPngUpload : UploadFile := ⟨"big.png", "image/png", List.replicate 6291456 0⟩

/-- C7, counterexample.  A 6 MiB non-PDF upload is larger than the 5 MiB
ceiling, yet the rejection it gets is the media-type error, not a size
error: the fileFilter runs on the file's metadata before the size limit can
trigger. -/
theorem oversize_nonpdf_type_error_ce :
    (postInternship none none none initState validFields (some bigPngUpload) 0).1 =
      ⟨500, Body.errorPage pdfOnlyMessage⟩ ∧
    fileSizeLimit < bigPngUpload.bytes.length ∧
    pdfOnlyMessage ≠ fileTooLargeMessage := by
  refine ⟨rfl, ?_, by decide⟩
  show fileSizeLimit < (List.replicate 6291456 0).length
  rw [List.length_replicate]
  decide

/-- C7, amended.  A PDF upload strictly larger than 5 MiB is rejected with
the distinct LIMIT_FILE_SIZE error at the multer ingestion boundary, before
any bytes reach the blob store and before any record is inserted (the state
is unchanged); a non-PDF file, however large, is instead rejected by the
media-type filter first. -/
theorem oversize_pdf_distinct_size_error (d u sv : Option String)
    (st : ServerState) (b : InternshipInput) (f : UploadFile) (now : Nat)
    (hmt : f.mimetype = "application/pdf")
    (hsz : fileSizeLimit < f.bytes.length) :
    postInternship d u sv st b (some f) now =
      (⟨500, Body.errorPage fileTooLargeMessage⟩, st) ∧
    fileTooLargeMessage ≠ pdfOnlyMessage := by
  constructor
  · unfold postInternship multerCheck
    simp [hmt, hsz]
  · decide

def bigPdfUpload : UploadFile :=
  ⟨"cv.pdf", "application/pdf", List.replicate (fileSizeLimit + 1) 0⟩

theorem oversize_pdf_distinct_size_error_witness :
    postInternship none none none initState validFields (some bigPdfUpload) 3 =
      (⟨500, Body.errorPage fileTooLargeMessage⟩, initState) ∧
    fileTooLargeMessage ≠ pdfOnlyMessage :=
  oversize_pdf_distinct_size_error none none none initState validFields
    bigPdfUpload 3 rfl
    (by show fileSizeLimit < (List.replicate (fileSizeLimit + 1) 0).length
        rw [List.length_replicate]
        exact Nat.lt_succ_self _)

/-- C3.  On GET /api/resume/:id with no infrastructure fault, a malformed
id (one the ObjectId constructor rejects) yields 400 {error: "Invalid
resume ID"}; a well-formed id matching no stored blob yields 404 {error:
"Resume not found"}; and the two outcomes are distinct responses. -/
theorem resume_id_semantics (st : ServerState) (s : String) :
    (parseObjectId s = none →
      getResume none false st s = ⟨400, Body.errorObj "Invalid resume ID"⟩) ∧
    (∀ fid, parseObjectId s = some fid → findBlob st.blobs fid = none →
      getResume none false st s = ⟨404, Body.errorObj "Resume not found"⟩) ∧
    Response.mk 400 (Body.errorObj "Invalid resume ID") ≠
      Response.mk 404 (Body.errorObj "Resume not found") := by
  refine ⟨?_, ?_, by decide⟩
  · intro h
    simp [getResume, h]
  · intro fid h1 h2
    simp [getResume, h1, h2]

theorem resume_id_semantics_witness :
    getResume none false initState "zz" =
      ⟨400, Body.errorObj "Invalid resume ID"⟩ ∧
    getResume none false initState "000000000000000000000000" =
      ⟨404, Body.errorObj "Resume not found"⟩ :=
  ⟨(resume_id_semantics initState "zz").1 (by decide),
   (resume_id_semantics initState "000000000000000000000000").2.1 0
     (by decide) rfl⟩

/-- C10.  The resume route treats an id as well-formed exactly when the
ObjectId constructor accepts it, and the constructor accepts any
12-character string; so a 12-character id that is not hexadecimal still
parses, and when no blob is stored under it the route answers 404 "Resume
not found" rather than 400 "Invalid resume ID". -/
theorem twelve_char_id_treated_wellformed (s : String) (h12 : s.length = 12)
    (_hnohex : s.data.all isHexChar = false) (st : ServerState)
    (habsent : ∀ fid, parseObjectId s = some fid →
      findBlob st.blobs fid = none) :
    (parseObjectId s).isSome = true ∧
    getResume none false st s = ⟨404, Body.errorObj "Resume not found"⟩ := by
  have hparse : parseObjectId s =
      some (s.data.foldl (fun a c => a * 256 + c.toNat % 256) 0) := by
    unfold parseObjectId
    simp [h12]
  refine ⟨by rw [hparse]; rfl, ?_⟩
  simp [getResume, hparse, habsent _ hparse]

theorem twelve_char_id_treated_wellformed_witness :
    (parseObjectId "not-a-hex-id").isSome = true ∧
    getResume none false initState "not-a-hex-id" =
      ⟨404, Body.errorObj "Resume not found"⟩ :=
  twelve_char_id_treated_wellformed "not-a-hex-id" (by decide) (by decide)
    initState (fun _ _ => rfl)

def ce4record : InternshipRecord :=
  ⟨"Grace", "Hopper", "071", "grace@example.org", 0, "resume_1_cv.pdf", 1⟩

def ce4state : ServerState :=
  ⟨[(0, ⟨"resume_1_cv.pdf", "application/pdf", [1]⟩)], [ce4record], [], 1⟩

/-- C4, counterexample.  A state holding one internship record with an
attached resume admits the listing response that simply serializes the
record — and that record document carries no `resumeDownloadUrl` key at
all: GET /api/contacts/internship returns the collection undecorated. -/
theorem listing_undecorated_ce :
    listInternshipValid none ce4state
      ⟨200, Body.listObj [internshipDoc ce4record]⟩ ∧
    "resumeDownloadUrl" ∉ (internshipDoc ce4record).map Prod.fst := by
  constructor
  · exact ⟨[ce4record], ⟨List.Perm.refl _, List.pairwise_singleton _ _⟩, rfl⟩
  · decide

/-- C4, amended.  The derived download reference is attached only to the
record echoed by the POST /api/contact/internship success response
(`resumeDownloadUrl` built from the stored file id); the listing operation
returns the records undecorated — no record document it produces ever
contains a `resumeDownloadUrl` key. -/
theorem download_url_only_on_post_response :
    (∀ (st : ServerState) (b : InternshipInput) (f : UploadFile) (now : Nat),
      falsy b.name = false → falsy b.lastName = false →
      falsy b.email = false → falsy b.mobile = false →
      multerCheck (some f) = none →
      (postInternship none none none st b (some f) now).1 =
        ⟨200, Body.postObj "Internship application saved successfully!"
          (internshipDoc ⟨b.name.getD "", b.lastName.getD "", b.mobile.getD "",
              b.email.getD "", st.nextBlobId,
              "resume_" ++ toString now ++ "_" ++ f.originalname, now⟩ ++
           [("resumeDownloadUrl", "/api/resume/" ++ toHex24 st.nextBlobId)])⟩) ∧
    (∀ r : InternshipRecord,
      "resumeDownloadUrl" ∉ (internshipDoc r).map Prod.fst) := by
  constructor
  · intro st b f now h1 h2 h3 h4 hm
    unfold postInternship
    rw [hm]
    simp [h1, h2, h3, h4]
  · intro r
    simp [internshipDoc]

def smallPdfUpload : UploadFile := ⟨"cv.pdf", "application/pdf", [1, 2, 3]⟩

theorem download_url_only_on_post_response_witness :
    (postInternship none none none initState validFields (some smallPdfUpload) 9).1 =
      ⟨200, Body.postObj "Internship application saved successfully!"
        (internshipDoc ⟨validFields.name.getD "", validFields.lastName.getD "",
            validFields.mobile.getD "", validFields.email.getD "",
            initState.nextBlobId,
            "resume_" ++ toString 9 ++ "_" ++ smallPdfUpload.originalname, 9⟩ ++
         [("resumeDownloadUrl", "/api/resume/" ++ toHex24 initState.nextBlobId)])⟩ ∧
    "resumeDownloadUrl" ∉ (internshipDoc sampleRecord).map Prod.fst :=
  ⟨(download_url_only_on_post_response).1 initState validFields smallPdfUpload 9
      rfl rfl rfl rfl rfl,
   (download_url_only_on_post_response).2 sampleRecord⟩

def tieFirst : InternshipRecord := ⟨"A", "A", "1", "a@example.org", 0, "ra", 5⟩

def tieSecond : InternshipRecord := ⟨"B", "B", "2", "b@example.org", 1, "rb", 5⟩

def tieState : ServerState :=
  ⟨[(0, ⟨"ra", "application/pdf", [1]⟩), (1, ⟨"rb", "application/pdf", [2]⟩)],
   [tieFirst, tieSecond], [], 2⟩

/-- C5, counterexample.  With two records stored at the same `createdAt`,
the listing semantics admit the response that returns them in the reverse
of insertion order: MongoDB's sort guarantees nothing about ties, so the
"ties broken by insertion order (a stable sort)" part of the claim is not a
property of this code. -/
theorem listing_tie_order_unspecified_ce :
    listInternshipValid none tieState
      ⟨200, Body.listObj ([tieSecond, tieFirst].map internshipDoc)⟩ ∧
    [tieSecond, tieFirst] ≠ [tieFirst, tieSecond] := by
  constructor
  · exact ⟨[tieSecond, tieFirst], ⟨List.Perm.swap tieFirst tieSecond [], by decide⟩, rfl⟩
  · decide

/-- C5, amended.  The listing returns the stored records sorted newest
first by `createdAt` descending; the relative order of records with equal
`createdAt` is unspecified.  In particular, for records inserted at strictly
increasing times T1 < T2 < T3 the listing response is exactly [T3, T2, T1]. -/
theorem listing_strict_times_newest_first (st : ServerState)
    (r1 r2 r3 : InternshipRecord) (hst : st.internships = [r1, r2, r3])
    (h12 : r1.createdAt < r2.createdAt) (h23 : r2.createdAt < r3.createdAt)
    (resp : Response) (hv : listInternshipValid none st resp) :
    resp = ⟨200, Body.listObj ([r3, r2, r1].map internshipDoc)⟩ := by
  obtain ⟨out, ⟨hperm, hsort⟩, hresp⟩ := hv
  rw [hst] at hperm
  have hperm2 : out.Perm [r3, r2, r1] := by
    have hrev : ([r3, r2, r1] : List InternshipRecord) = [r1, r2, r3].reverse := rfl
    rw [hrev]
    exact hperm.trans (List.reverse_perm [r1, r2, r3]).symm
  have hsort2 : [r3, r2, r1].Pairwise
      (fun a b : InternshipRecord => b.createdAt ≤ a.createdAt) := by
    refine List.pairwise_cons.mpr ⟨?_, List.pairwise_cons.mpr
      ⟨?_, List.pairwise_singleton _ _⟩⟩
    · intro b hb
      rcases List.mem_cons.mp hb with rfl | hb
      · exact Nat.le_of_lt h23
      · rcases List.mem_singleton.mp hb with rfl
        exact Nat.le_of_lt (Nat.lt_trans h12 h23)
    · intro b hb
      rcases List.mem_singleton.mp hb with rfl
      exact Nat.le_of_lt h12
  have hnd : (out.map fun r : InternshipRecord => r.createdAt).Nodup := by
    have hmap : (out.map fun r : InternshipRecord => r.createdAt).Perm
        ([r1, r2, r3].map fun r : InternshipRecord => r.createdAt) := hperm.map _
    refine (List.Perm.nodup_iff hmap).mpr ?_
    have hmapeq : ([r1, r2, r3].map fun r : InternshipRecord => r.createdAt) =
        [r1.createdAt, r2.createdAt, r3.createdAt] := rfl
    rw [hmapeq]
    refine List.nodup_cons.mpr ⟨?_, List.nodup_cons.mpr
      ⟨?_, List.nodup_singleton _⟩⟩
    · intro hmem
      rcases List.mem_cons.mp hmem with heq | hmem2
      · omega
      · have heq := List.mem_singleton.mp hmem2
        omega
    · intro hmem
      have heq := List.mem_singleton.mp hmem
      omega
  have hout : out = [r3, r2, r1] :=
    sortedDesc_perm_eq (fun r : InternshipRecord => r.createdAt) out
      [r3, r2, r1] hperm2 hsort hsort2 hnd
  rw [hresp, hout]

def w5a : InternshipRecord := ⟨"P", "Q", "1", "p@example.org", 0, "r1", 1⟩

def w5b : InternshipRecord := ⟨"R", "S", "2", "r@example.org", 1, "r2", 2⟩

def w5c : InternshipRecord := ⟨"T", "U", "3", "t@example.org", 2, "r3", 3⟩

def w5state : ServerState := ⟨[], [w5a, w5b, w5c], [], 3⟩

theorem listing_strict_times_newest_first_witness :
    (⟨200, Body.listObj ([w5c, w5b, w5a].map internshipDoc)⟩ : Response) =
      ⟨200, Body.listObj ([w5c, w5b, w5a].map internshipDoc)⟩ :=
  listing_strict_times_newest_first w5state w5a w5b w5c rfl (by decide)
    (by decide) ⟨200, Body.listObj ([w5c, w5b, w5a].map internshipDoc)⟩
    ⟨[w5c, w5b, w5a], ⟨by decide, by decide⟩, rfl⟩

/-- C6, counterexample.  A database-connection fault during
GET /api/resume/:id with a perfectly well-formed id yields HTTP 400
{error: "Invalid resume ID"} — not 500, and without the underlying error
text: the route's catch turns every pre-stream throw into the invalid-id
response. -/
theorem resume_route_fault_yields_400_ce :
    getResume (some "connection timed out") false initState (toHex24 0) =
      ⟨400, Body.errorObj "Invalid resume ID"⟩ ∧
    (getResume (some "connection timed out") false initState (toHex24 0)).status ≠ 500 :=
  ⟨rfl, by decide⟩

/-- C6, amended.  Infrastructure faults are surfaced per route: the two
POST routes answer 500 with the underlying error text in the `error` field;
GET /api/resume/:id answers 400 {error: "Invalid resume ID"} for any
pre-stream fault, swallowing the text; the internship listing answers 500
with no error text at all. -/
theorem infra_fault_responses (m : String) (st : ServerState) :
    (∀ (b : InternshipInput) (f : Option UploadFile) (now : Nat),
      multerCheck f = none →
      (postInternship (some m) none none st b f now).1 =
        ⟨500, Body.msgObj false "Failed to save internship application" (some m)⟩) ∧
    (∀ (inp : GeneralInput) (now : Nat),
      (postGeneral (some m) none st inp now).1 =
        ⟨500, Body.msgObj false "Failed to save message" (some m)⟩) ∧
    (∀ s : String,
      getResume (some m) false st s = ⟨400, Body.errorObj "Invalid resume ID"⟩) ∧
    (∀ resp : Response, listInternshipValid (some m) st resp →
      resp = ⟨500, Body.msgObj false "Failed to fetch internship contacts" none⟩) := by
  refine ⟨?_, fun inp now => rfl, fun s => rfl, fun resp h => h⟩
  intro b f now hm
  unfold postInternship
  rw [hm]

theorem infra_fault_responses_witness :
    (postInternship (some "socket closed") none none initState validFields none 0).1 =
      ⟨500, Body.msgObj false "Failed to save internship application"
        (some "socket closed")⟩ ∧
    (postGeneral (some "socket closed") none initState
        ⟨some "Ann", none, some "ann@example.org", none, none⟩ 0).1 =
      ⟨500, Body.msgObj false "Failed to save message" (some "socket closed")⟩ ∧
    getResume (some "socket closed") false initState "000000000000000000000000" =
      ⟨400, Body.errorObj "Invalid resume ID"⟩ ∧
    (⟨500, Body.msgObj false "Failed to fetch internship contacts" none⟩ : Response) =
      ⟨500, Body.msgObj false "Failed to fetch internship contacts" none⟩ :=
  ⟨(infra_fault_responses "socket closed" initState).1 validFields none 0 rfl,
   (infra_fault_responses "socket closed" initState).2.1
     ⟨some "Ann", none, some "ann@example.org", none, none⟩ 0,
   (infra_fault_responses "socket closed" initState).2.2.1
     "000000000000000000000000",
   (infra_fault_responses "socket closed" initState).2.2.2
     ⟨500, Body.msgObj false "Failed to fetch internship contacts" none⟩ rfl⟩

def ce8input : GeneralInput :=
  ⟨some "Ann", none, some "ann@example.org", none, none⟩

/-- C8, counterexample.  A valid general submission with `mobile`,
`subject` and `message` absent persists a document holding only the keys
name, email and createdAt: the absent optional fields are omitted from the
stored record altogether (mongoose does not persist paths set to
undefined), not stored as empty/null. -/
theorem general_absent_fields_omitted_ce :
    (postGeneral none none initState ce8input 42).2.generals =
      [[("name", "Ann"), ("email", "ann@example.org"), ("createdAt", "42")]] ∧
    "mobile" ∉ (generalDoc ce8input 42).map Prod.fst ∧
    lookupField (generalDoc ce8input 42) "mobile" = none := by
  refine ⟨rfl, by decide, rfl⟩

/-- C8, amended.  On a valid general contact submission every supplied
field is persisted with its value — nothing supplied is silently dropped —
and `createdAt` is set; but an absent optional field (mobile, subject or
message) is omitted from the stored document entirely rather than persisted
as empty/null: looking it up in the stored record finds no key. -/
theorem general_insert_field_persistence (st : ServerState)
    (inp : GeneralInput) (now : Nat) (hname : falsy inp.name = false)
    (hemail : falsy inp.email = false) :
    postGeneral none none st inp now =
      (⟨200, Body.postObj "Message saved successfully!" (generalDoc inp now)⟩,
       { st with generals := st.generals ++ [generalDoc inp now] }) ∧
    lookupField (generalDoc inp now) "name" = inp.name ∧
    lookupField (generalDoc inp now) "mobile" = inp.mobile ∧
    lookupField (generalDoc inp now) "email" = inp.email ∧
    lookupField (generalDoc inp now) "subject" = inp.subject ∧
    lookupField (generalDoc inp now) "message" = inp.message ∧
    lookupField (generalDoc inp now) "createdAt" = some (toString now) := by
  obtain ⟨n, mo, e, su, me⟩ := inp
  cases n with
  | none => simp [falsy] at hname
  | some ns =>
    cases e with
    | none => simp [falsy] at hemail
    | some es =>
      have hn : (ns == "") = false := hname
      have he : (es == "") = false := hemail
      refine ⟨?_, ?_⟩
      · unfold postGeneral
        simp [falsy, hn, he]
      · cases mo <;> cases su <;> cases me <;>
          simp [generalDoc, optField, lookupField]

theorem general_insert_field_persistence_witness :
    postGeneral none none initState ce8input 42 =
      (⟨200, Body.postObj "Message saved successfully!" (generalDoc ce8input 42)⟩,
       { initState with generals := initState.generals ++ [generalDoc ce8input 42] }) ∧
    lookupField (generalDoc ce8input 42) "name" = ce8input.name ∧
    lookupField (generalDoc ce8input 42) "mobile" = ce8input.mobile ∧
    lookupField (generalDoc ce8input 42) "email" = ce8input.email ∧
    lookupField (generalDoc ce8input 42) "subject" = ce8input.subject ∧
    lookupField (generalDoc ce8input 42) "message" = ce8input.message ∧
    lookupField (generalDoc ce8input 42) "createdAt" = some (toString 42) :=
  general_insert_field_persistence initState ce8input 42 rfl rfl

/-- C9.  The resume download is a pure read: serving it leaves the state
unchanged, and because blobs are immutable once written — later requests
only ever add blobs under fresh ids — a GET /api/resume/:id that returned a
stored file keeps returning the byte-identical content with identical
content type and filename after any further requests are served. -/
theorem resume_read_idempotent :
    (∀ (st : ServerState) (d : Option String) (sf : Bool) (s : String),
      stepState st (Op.getR d sf s) = st) ∧
    (∀ (ops more : List Op) (s ct fn : String) (bs : List Nat),
      getResume none false (runOps ops) s = ⟨200, Body.pdfStream ct fn bs⟩ →
      getResume none false (runOps (ops ++ more)) s =
        ⟨200, Body.pdfStream ct fn bs⟩) := by
  constructor
  · intro st d sf s
    rfl
  · intro ops more s ct fn bs h
    cases hp : parseObjectId s with
    | none =>
      simp [getResume, hp] at h
    | some fid =>
      cases hf : findBlob (runOps ops).blobs fid with
      | none =>
        simp [getResume, hp, hf] at h
      | some b =>
        simp only [getResume, hp, hf, Bool.false_eq_true, if_false,
          Response.mk.injEq, Body.pdfStream.injEq, true_and] at h
        obtain ⟨hct, hfn, hbs⟩ := h
        have hrun : runOps (ops ++ more) =
            List.foldl stepState (runOps ops) more := by
          unfold runOps
          rw [List.foldl_append]
        have hpres : findBlob (List.foldl stepState (runOps ops) more).blobs
            fid = some b :=
          (foldl_preserves more (runOps ops) (runOps_good ops)).2 fid b hf
        rw [hrun]
        subst hct hfn hbs
        simp [getResume, hp, hpres]

def c9ops : List Op :=
  [Op.postI none none none ⟨some "Ada", some "L", some "1", some "a@example.org"⟩
    (some ⟨"cv.pdf", "application/pdf", [37, 80, 68, 70]⟩) 5]

def c9more : List Op :=
  [Op.postG none none ⟨some "Bo", none, some "bo@example.org", none, none⟩ 6]

theorem resume_read_idempotent_witness :
    stepState (runOps c9ops) (Op.getR none false (toHex24 0)) = runOps c9ops ∧
    getResume none false (runOps (c9ops ++ c9more)) (toHex24 0) =
      ⟨200, Body.pdfStream "application/pdf" "resume_5_cv.pdf" [37, 80, 68, 70]⟩ :=
  ⟨(resume_read_idempotent).1 (runOps c9ops) none false (toHex24 0),
   (resume_read_idempotent).2 c9ops c9more (toHex24 0) "application/pdf"
     "resume_5_cv.pdf" [37, 80, 68, 70] (by decide)⟩

end Backend
